import Mathlib

/-!
# Verification of the axis-grouping and layout logic of `gwpy/plot/plot.py`

This file gives a shallow embedding of the grouping/layout policy layer of
the `Plot` figure class: the `_group_axes_data` grouping heuristic, the
`_parse_xscale` unit probe, the grid/sharing resolution performed by
`Plot._init_axes`, and the location validation of `add_segments_bar`.

Python values handed to the plotting entry point are modelled by `PyObj`:
a singular data-like object (carrying a concrete-type tag and an optional
`xunit` attribute), an iterable of the recognised `iterable_types`
(list/tuple/KeysView/ValuesView), or a mapping (`dict`, keeping only its
ordered values, which is all the code ever uses).
-/

/-- An astropy-style unit.  `unit` is the unit's identity (e.g. `"s"`,
`"h"`, `"Hz"`): Python's `set` in `_parse_xscale` deduplicates by full
unit equality (`u.s == u.h` is `False` even though both are times), which
this field stands for.  `physical_type` is the derived attribute the code
reads on line 519; distinct units may share a physical type. -/
structure AUnit where
  unit : String
  physical_type : String
deriving DecidableEq, Repr

instance : Inhabited AUnit := ⟨⟨"", ""⟩⟩

/-- A Python object as seen by the grouping logic of `plot.py`:
* `atom ty xunit` — a singular data object; `ty` is a tag standing for its
  concrete Python type (used by `type(x) is type(inputs[0])`), `xunit` is
  `some u` when the object exposes an `xunit` attribute (`hasattr`);
* `pylist items` — an instance of one of `iterable_types`;
* `pydict values` — a `dict`, recorded as its values in insertion order
  (the only part of a mapping the code reads, via `list(x.values())`). -/
inductive PyObj where
  | atom (ty : Nat) (xunit : Option AUnit)
  | pylist (items : List PyObj)
  | pydict (values : List PyObj)

mutual

def PyObj.decEq : (a b : PyObj) → Decidable (a = b)
  | .atom t u, .atom t' u' =>
    if h : t = t' ∧ u = u' then isTrue (by rw [h.1, h.2])
    else isFalse (fun hc => by cases hc; exact h ⟨rfl, rfl⟩)
  | .atom _ _, .pylist _ => isFalse (fun hc => PyObj.noConfusion hc)
  | .atom _ _, .pydict _ => isFalse (fun hc => PyObj.noConfusion hc)
  | .pylist _, .atom _ _ => isFalse (fun hc => PyObj.noConfusion hc)
  | .pylist l, .pylist m =>
    match PyObj.decEqList l m with
    | isTrue h => isTrue (by rw [h])
    | isFalse h => isFalse (fun hc => by cases hc; exact h rfl)
  | .pylist _, .pydict _ => isFalse (fun hc => PyObj.noConfusion hc)
  | .pydict _, .atom _ _ => isFalse (fun hc => PyObj.noConfusion hc)
  | .pydict _, .pylist _ => isFalse (fun hc => PyObj.noConfusion hc)
  | .pydict l, .pydict m =>
    match PyObj.decEqList l m with
    | isTrue h => isTrue (by rw [h])
    | isFalse h => isFalse (fun hc => by cases hc; exact h rfl)

def PyObj.decEqList : (as bs : List PyObj) → Decidable (as = bs)
  | [], [] => isTrue rfl
  | [], _ :: _ => isFalse (fun hc => List.noConfusion hc)
  | _ :: _, [] => isFalse (fun hc => List.noConfusion hc)
  | a :: as, b :: bs =>
    match PyObj.decEq a b, PyObj.decEqList as bs with
    | isTrue h1, isTrue h2 => isTrue (by rw [h1, h2])
    | isFalse h1, _ => isFalse (fun hc => h1 (List.cons.inj hc).1)
    | isTrue _, isFalse h2 => isFalse (fun hc => h2 (List.cons.inj hc).2)

end

instance : DecidableEq PyObj := PyObj.decEq

/-- The concrete Python type of an object, as compared by
`type(x) is type(inputs[0])` in `_group_axes_data`. -/
inductive PyType where
  | atomTy (n : Nat)
  | listTy
  | dictTy
deriving DecidableEq, Repr

def pytype : PyObj → PyType
  | .atom t _ => .atomTy t
  | .pylist _ => .listTy
  | .pydict _ => .dictTy

/-- `isinstance(x, iterable_types)` — `iterable_types = (list, tuple,
KeysView, ValuesView)` in the source. -/
def is_iterable : PyObj → Bool
  | .pylist _ => true
  | _ => false

/-- `isinstance(x, dict)`. -/
def is_dict : PyObj → Bool
  | .pydict _ => true
  | _ => false

/-- A singular (non-collection, non-mapping) input. -/
def is_singular : PyObj → Bool
  | .atom _ _ => true
  | _ => false

/-- The `xunit` attribute of an object when it has one
(`hasattr(x, 'xunit')` and `x.xunit` together). -/
def xunit_of : PyObj → Option AUnit
  | .atom _ u => u
  | _ => none

instance : Inhabited PyObj := ⟨.atom 0 none⟩

/-- The auto-separation inference at the top of `_group_axes_data`
(`plot.py` lines 477-483): when `separate is None and inputs` is truthy,
set `separate = True` if any input is an iterable or a dict, else set
`separate = True` if the inputs are not all of the same concrete type;
otherwise `separate` is left unchanged (in particular it can remain
`None`, which is falsy in the loop that follows). -/
def _infer_separate (inputs : List PyObj) (separate : Option Bool) : Option Bool :=
  if separate.isNone && !inputs.isEmpty then
    if inputs.any (fun x => is_iterable x || is_dict x) then some true
    else if !(inputs.all (fun x => pytype x == pytype inputs.headI)) then some true
    else separate
  else separate

/-- `out[-1].append(x)`: append `x` to the most recent group.  On an empty
`out` the Python line would raise `IndexError`, but the branch is guarded
by `not out`; we return `[]` in that unreachable case. -/
def append_last : List (List PyObj) → PyObj → List (List PyObj)
  | [], _ => []
  | [g], x => [g ++ [x]]
  | g :: h :: t, x => g :: append_last (h :: t) x

/-- One iteration of the grouping loop of `_group_axes_data`
(`plot.py` lines 487-501), with `separate` already reduced to its
truthiness: a dict is unwrapped to `list(x.values())` which is then an
iterable and is appended as its own group; an iterable is appended as its
own group as-is; a singular object starts a new group when `separate` is
truthy or no group exists yet, and otherwise joins the most recent
group. -/
def _group_step (separate : Bool) (out : List (List PyObj)) (x : PyObj) : List (List PyObj) :=
  match x with
  | .pydict vs => out ++ [vs]
  | .pylist items => out ++ [items]
  | .atom t u =>
    if separate || out.isEmpty then out ++ [[PyObj.atom t u]]
    else append_last out (PyObj.atom t u)

/-- `_group_axes_data(inputs, separate=separate)` with `flat=False`
(`plot.py` lines 435-506): infer `separate` when unspecified, then fold
the grouping step over the inputs.  `Option Bool` models the Python
tri-state `None`/`True`/`False`; `(·).getD false` is Python truthiness of
that tri-state. -/
def _group_axes_data (inputs : List PyObj) (separate : Option Bool) :
    List (List PyObj) :=
  let sep := _infer_separate inputs separate
  inputs.foldl (_group_step (sep.getD false)) []

/-- `_group_axes_data(inputs, separate=separate, flat=True)`
(`plot.py` lines 503-504): the concatenation of all groups in order.
In the Python source this is the same function, whose return shape
depends on the `flat` flag; the embedding splits the two shapes into two
definitions. -/
def _group_axes_data_flat (inputs : List PyObj) (separate : Option Bool) :
    List PyObj :=
  (_group_axes_data inputs separate).flatten

/-- `_parse_xscale(data)` (`plot.py` lines 509-520): collect the set of
distinct `xunit` values of the items exposing one (`List.dedup` of the
collected list models the Python `set`); if the set does not have exactly
one element return `None`; otherwise return `'auto-gps'` exactly when the
single unit's `physical_type` is `'time'` (falling off the end of the
function, i.e. `None`, otherwise). -/
def _parse_xscale (data : List PyObj) : Option String :=
  let units := (data.filterMap xunit_of).dedup
  if units.length ≠ 1 then none
  else if (units.headI).physical_type = "time" then some "auto-gps"
  else none

/-- The `sharex`/`sharey` argument of `_init_axes`: the Python parameter
accepts a `bool` or one of the strings `"none"/"all"/"row"/"col"`. -/
inductive ShareArg where
  | bool (b : Bool)
  | str (s : String)
deriving DecidableEq, Repr

/-- Lines 116-119 of `plot.py`: `isinstance(sharex, bool)` coercion,
`True ↦ "all"`, `False ↦ "none"`; strings pass through unchanged. -/
def coerce_share : ShareArg → String
  | .bool true => "all"
  | .bool false => "none"
  | .str s => s

/-- One created subplot, with the fields of the construction the claims
are about: its grid position, the previously created axes (identified by
grid position) passed as `sharex`/`sharey` to `add_subplot` (`none` when
the Python value was `None`), the `xscale` passed to `add_subplot`,
whether `_init_axes` cleared its x/y label after plotting, and the data
group drawn on it. -/
structure AxesRec where
  row : Nat
  col : Nat
  sharex : Option (Nat × Nat)
  sharey : Option (Nat × Nat)
  xscale : Option String
  xlabelCleared : Bool
  ylabelCleared : Bool
  group : List PyObj
deriving DecidableEq

/-- The row-major fill order `itertools.product(range(nrows), range(ncols))`
of line 144. -/
def grid_positions (nrows ncols : Nat) : List (Nat × Nat) :=
  (List.range nrows).flatMap (fun r => (List.range ncols).map (fun c => (r, c)))

/-- The dict lookup `shared_with = {"none": None, "all": axarr[0, 0],
"row": axarr[row, 0], "col": axarr[0, col]}` (lines 146-148), evaluated
when the axes at `(row, col)` is about to be created.  `axarr` starts as
an object array of `None`s and is filled in row-major order, so the
looked-up entry is an axes object exactly when its position strictly
precedes `(row, col)` in row-major order, and `None` otherwise (in
particular the anchor cell itself reads `None` while it is being
created: `(0,0)` for "all", `(row,0)` when `col = 0` for "row",
`(0,col)` when `row = 0` for "col").  Any other string raises `KeyError`
at the subscript `shared_with[sharex]`. -/
def shared_with (spec : String) (row col : Nat) : Except String (Option (Nat × Nat)) :=
  if spec = "none" then .ok none
  else if spec = "all" then .ok (if row = 0 ∧ col = 0 then none else some (0, 0))
  else if spec = "row" then .ok (if col = 0 then none else some (row, 0))
  else if spec = "col" then .ok (if row = 0 then none else some (0, col))
  else .error "KeyError"

/-- The body of the axes-creation loop (lines 145-164) for the group `g`
at position `(row, col)`: resolve the axes shared with for x and y,
resolve the per-axes `xscale` (line 150: `xscale if xscale else
_parse_xscale(group)` — `None` and the empty string are both falsy in
Python), and record whether the label-suppression conditionals of lines
161-164 fire (`sharex == 'all' and row < nrows - 1` clears the x label,
`sharey == 'all' and col < ncols - 1` clears the y label). -/
def mk_axes (sharex sharey : String) (xscale : Option String) (nrows ncols : Nat)
    (g : List PyObj) (row col : Nat) : Except String AxesRec := do
  let sx ← shared_with sharex row col
  let sy ← shared_with sharey row col
  let scale := match xscale with
    | some s => if s = "" then _parse_xscale g else some s
    | none => _parse_xscale g
  .ok { row := row, col := col, sharex := sx, sharey := sy, xscale := scale,
        xlabelCleared := decide (sharex = "all" ∧ row < nrows - 1),
        ylabelCleared := decide (sharey = "all" ∧ col < ncols - 1),
        group := g }

/-- The axes-creation loop of lines 143-164, over
`zip(axes_groups, itertools.product(range(nrows), range(ncols)))`. -/
def build_axes (sharex sharey : String) (xscale : Option String) (nrows ncols : Nat) :
    List (List PyObj × (Nat × Nat)) → Except String (List AxesRec)
  | [] => .ok []
  | (g, rc) :: rest => do
    let a ← mk_axes sharex sharey xscale nrows ncols g rc.1 rc.2
    let as ← build_axes sharex sharey xscale nrows ncols rest
    .ok (a :: as)

/-- Lines 126-127: an explicit geometry whose cell count equals the raw
input count (`len(data)`, not the group count) forces `separate = True`
before grouping. -/
def resolved_separate (data : List PyObj) (geometry : Option (Nat × Nat))
    (separate : Option Bool) : Option Bool :=
  match geometry with
  | some g => if g.1 * g.2 = data.length then some true else separate
  | none => separate

/-- The groups `_init_axes` lays out (line 128), after the possible
forcing of `separate` by lines 126-127. -/
def init_axes_groups (data : List PyObj) (geometry : Option (Nat × Nat))
    (separate : Option Bool) : List (List PyObj) :=
  _group_axes_data data (resolved_separate data geometry separate)

/-- Lines 130-132: an omitted geometry defaults to `(naxes, 1)`. -/
def resolved_geometry (data : List PyObj) (geometry : Option (Nat × Nat))
    (separate : Option Bool) : Nat × Nat :=
  match geometry with
  | some g => g
  | none => ((init_axes_groups data geometry separate).length, 1)

/-- `Plot._init_axes(data, xscale=xscale, sharex=sharex0, sharey=sharey0,
geometry=geometry, separate=separate)` (lines 111-166), modelled up to
the list of created subplots: boolean share specs are coerced (116-119);
a full explicit geometry forces separation (126-127); the data is grouped
(128); geometry defaults to a single column (130-132); a grid/group-count
mismatch raises `ValueError` with the message of lines 134-136; otherwise
one axes is created per group in row-major order (143-164).
`Except.error` models a raised exception. -/
def _init_axes (data : List PyObj) (xscale : Option String)
    (sharex0 sharey0 : ShareArg) (geometry : Option (Nat × Nat))
    (separate : Option Bool) : Except String (List AxesRec) :=
  let sharex := coerce_share sharex0
  let sharey := coerce_share sharey0
  let axes_groups := init_axes_groups data geometry separate
  let naxes := axes_groups.length
  let nrows := (resolved_geometry data geometry separate).1
  let ncols := (resolved_geometry data geometry separate).2
  if nrows * ncols ≠ naxes then
    .error ("cannot group data into " ++ toString naxes ++ " axes with a "
      ++ toString nrows ++ "x" ++ toString ncols ++ " grid")
  else
    build_axes sharex sharey xscale nrows ncols
      (axes_groups.zip (grid_positions nrows ncols))

/-- The `xscale` default of `Plot.__init__` (lines 66-76):
`kwargs.setdefault('xscale', _parse_xscale(_group_axes_data(data, flat=True)))`
keeps a caller-supplied `xscale` and otherwise stores the probe result
(possibly `None`).  The later `kwargs.setdefault('xscale', 'auto-gps')`
of line 76 can never change the value because line 69 always leaves the
`'xscale'` key present. -/
def plot_init_xscale (data : List PyObj) (caller : Option (Option String)) :
    Option String :=
  match caller with
  | some x => x
  | none => _parse_xscale (_group_axes_data_flat data none)

/-- The externally visible effects of `add_segments_bar`, in order. -/
inductive SegBarStep where
  | append_axes (location : String)
  | set_autoscalex
  | set_xlim
  | hide_anchor_xticklabels
  | clear_anchor_xlabel
  | plot_segments
  | grid_off
  | autoscale_y
deriving DecidableEq, Repr

/-- `Plot.add_segments_bar(segments, location=location, ...)` (lines
353-422), modelled as the trace of effects on the figure paired with a
possible raised exception: the anchor axes and the divider are obtained
first (391-399, creating no axes), then the `location` check of lines
400-402 raises `ValueError` for any location not in `{'top', 'bottom'}`;
only after it passes does `divider.append_axes` create the new segment
axes (408), followed by the anchor updates that run when
`axes_kw['sharex'] is ax` (411-415, recorded by `sharex_is_ax`) and the
segment plotting calls (418-420). -/
def add_segments_bar (location : String) (sharex_is_ax : Bool) :
    List SegBarStep × Except String Unit :=
  if ¬ (location = "top" ∨ location = "bottom") then
    ([], .error "Segments can only be positoned at 'top' or 'bottom'.")
  else
    ((SegBarStep.append_axes location ::
        (if sharex_is_ax then
          [SegBarStep.set_autoscalex, SegBarStep.set_xlim,
           SegBarStep.hide_anchor_xticklabels, SegBarStep.clear_anchor_xlabel]
         else []) ++
        [SegBarStep.plot_segments, SegBarStep.grid_off, SegBarStep.autoscale_y]),
     .ok ())

/-- Two singular inputs of the same concrete type whose `xunit`s differ:
one of physical type `time`, one of physical type `frequency`. -/
def demo_data : List PyObj :=
  [.atom 0 (some ⟨"s", "time"⟩), .atom 0 (some ⟨"Hz", "frequency"⟩)]

/-- The single group an input contributes when every input gets its own
group (`separate` truthy): a dict contributes its values, an iterable
contributes itself, a singular object is wrapped in a one-element
group. -/
def to_group : PyObj → List PyObj
  | .atom t u => [.atom t u]
  | .pylist l => l
  | .pydict v => v

/-- The share-spec strings the `shared_with` dict of line 146 has keys
for; any other string raises `KeyError` there.  These are also exactly
the values the spec documents as accepted. -/
def valid_share (s : String) : Prop :=
  s = "none" ∨ s = "all" ∨ s = "row" ∨ s = "col"

instance (s : String) : Decidable (valid_share s) := by
  unfold valid_share
  infer_instance

/-- The value `shared_with` yields for a valid spec (no `KeyError`). -/
def shared_with_ok (spec : String) (row col : Nat) : Option (Nat × Nat) :=
  if spec = "none" then none
  else if spec = "all" then (if row = 0 ∧ col = 0 then none else some (0, 0))
  else if spec = "row" then (if col = 0 then none else some (row, 0))
  else (if row = 0 then none else some (0, col))

/-- The pure value of one loop iteration for valid share specs. -/
def axes_of (sharex sharey : String) (xscale : Option String) (nrows ncols : Nat)
    (gp : List PyObj × (Nat × Nat)) : AxesRec :=
  { row := gp.2.1, col := gp.2.2,
    sharex := shared_with_ok sharex gp.2.1 gp.2.2,
    sharey := shared_with_ok sharey gp.2.1 gp.2.2,
    xscale := match xscale with
      | some s => if s = "" then _parse_xscale gp.1 else some s
      | none => _parse_xscale gp.1,
    xlabelCleared := decide (sharex = "all" ∧ gp.2.1 < nrows - 1),
    ylabelCleared := decide (sharey = "all" ∧ gp.2.2 < ncols - 1),
    group := gp.1 }

/-- The representative of the x-sharing group an axes belongs to.  The
underlying library's sharing relation is reflexive (`add_subplot` with
`sharex=None` leaves the axes alone in its own share group, a star whose
root is itself; `sharex=other` joins `other`'s group).  All joins
`_init_axes` produces point at an already-created self-rooted axes, so
"axes `a` shares x with the axes at position `p`" is exactly
`x_share_root a = p`, also when `a` itself sits at `p`. -/
def x_share_root (a : AxesRec) : Nat × Nat :=
  a.sharex.getD (a.row, a.col)

/-- The representative of the y-sharing group an axes belongs to. -/
def y_share_root (a : AxesRec) : Nat × Nat :=
  a.sharey.getD (a.row, a.col)

/-! ## Grouping lemmas -/

lemma singular_not_coll {x : PyObj} (h : is_singular x = true) :
    is_iterable x = false ∧ is_dict x = false := by
  cases x <;> simp [is_singular, is_iterable, is_dict] at *

lemma foldl_group_step_true (inputs : List PyObj) (acc : List (List PyObj)) :
    inputs.foldl (_group_step true) acc = acc ++ inputs.map to_group := by
  induction inputs generalizing acc with
  | nil => simp
  | cons x xs ih => cases x <;> simp [_group_step, to_group, ih]

/-- With `separate=True` passed explicitly, every input becomes exactly
one group. -/
lemma group_axes_data_sep_true (inputs : List PyObj) :
    _group_axes_data inputs (some true) = inputs.map to_group := by
  simp [_group_axes_data, _infer_separate, foldl_group_step_true]

/-- When `separate` is unspecified and some input is an iterable or a
dict, the inference of lines 477-480 sets `separate = True`. -/
lemma infer_separate_none_of_mem_coll (inputs : List PyObj) (x : PyObj)
    (hx : x ∈ inputs) (hd : is_iterable x = true ∨ is_dict x = true) :
    _infer_separate inputs none = some true := by
  have hne : inputs.isEmpty = false := by
    cases inputs
    · cases hx
    · rfl
  have hany : inputs.any (fun x => is_iterable x || is_dict x) = true := by
    rw [List.any_eq_true]
    exact ⟨x, hx, by rcases hd with h | h <;> simp [h]⟩
  simp [_infer_separate, hne, hany]

lemma group_axes_data_none_of_mem_coll (inputs : List PyObj) (x : PyObj)
    (hx : x ∈ inputs) (hd : is_iterable x = true ∨ is_dict x = true) :
    _group_axes_data inputs none = inputs.map to_group := by
  simp only [_group_axes_data, infer_separate_none_of_mem_coll inputs x hx hd,
    Option.getD_some]
  exact foldl_group_step_true inputs []

lemma append_last_append (acc : List (List PyObj)) (g : List PyObj) (x : PyObj) :
    append_last (acc ++ [g]) x = acc ++ [g ++ [x]] := by
  induction acc with
  | nil => rfl
  | cons a t ih =>
    cases ht : t ++ [g] with
    | nil => simp at ht
    | cons b u =>
      simp only [List.cons_append, ht, append_last]
      rw [← ht, ih]

/-- With `separate` falsy and only singular inputs, every input joins the
most recent group. -/
lemma foldl_group_step_false_singular :
    ∀ (xs : List PyObj), (∀ x ∈ xs, is_singular x = true) →
      ∀ (acc : List (List PyObj)) (g : List PyObj),
        xs.foldl (_group_step false) (acc ++ [g]) = acc ++ [g ++ xs]
  | [], _, acc, g => by simp
  | x :: t, h, acc, g => by
    have hx := h x (List.mem_cons_self x t)
    cases x with
    | pylist l => simp [is_singular] at hx
    | pydict l => simp [is_singular] at hx
    | atom ty u =>
      rw [List.foldl_cons]
      have hstep : _group_step false (acc ++ [g]) (PyObj.atom ty u)
          = acc ++ [g ++ [PyObj.atom ty u]] := by
        simp [_group_step, append_last_append]
      rw [hstep,
        foldl_group_step_false_singular t
          (fun y hy => h y (List.mem_cons_of_mem _ hy)) acc (g ++ [PyObj.atom ty u])]
      simp

/-! ## Claim C2 -/

/-- **C2**: for every non-empty list of singular inputs all of the same
concrete type, `_group_axes_data` with `separate` unspecified (`None`)
returns exactly one group containing all the inputs in their original
order; and (for every input list) the inference step sets
`separate = True` exactly when some input is a collection or mapping, or
the inputs are not all of identical concrete type. -/
theorem C2_default_grouping (inputs : List PyObj) (hne : inputs ≠ [])
    (hsing : ∀ x ∈ inputs, is_singular x = true)
    (hty : ∀ x ∈ inputs, ∀ y ∈ inputs, pytype x = pytype y) :
    _group_axes_data inputs none = [inputs]
    ∧ ∀ ins : List PyObj,
        (_infer_separate ins none = some true ↔
          ((∃ x ∈ ins, is_iterable x = true ∨ is_dict x = true)
            ∨ ¬ ∀ x ∈ ins, ∀ y ∈ ins, pytype x = pytype y)) := by
  constructor
  · cases inputs with
    | nil => exact absurd rfl hne
    | cons a t =>
      have hany : (a :: t).any (fun x => is_iterable x || is_dict x) = false := by
        rw [List.any_eq_false]
        intro x hx
        have h := singular_not_coll (hsing x hx)
        simp [h.1, h.2]
      have hall : (a :: t).all (fun x => pytype x == pytype (a :: t).headI) = true := by
        rw [List.all_eq_true]
        intro x hx
        have := hty x hx a (List.mem_cons_self a t)
        simpa [List.headI] using this
      have hinf : _infer_separate (a :: t) none = none := by
        unfold _infer_separate
        rw [hany, hall]
        simp
      have hstep1 : _group_step false [] a = [[a]] := by
        have h := hsing a (List.mem_cons_self a t)
        cases a with
        | atom ty u => simp [_group_step]
        | pylist l => simp [is_singular] at h
        | pydict l => simp [is_singular] at h
      calc _group_axes_data (a :: t) none
          = (a :: t).foldl (_group_step false) [] := by
            simp only [_group_axes_data, hinf, Option.getD_none]
        _ = t.foldl (_group_step false) ([] ++ [[a]]) := by
            rw [List.foldl_cons, hstep1]; rfl
        _ = [] ++ [[a] ++ t] := by
            exact foldl_group_step_false_singular t
              (fun y hy => hsing y (List.mem_cons_of_mem _ hy)) [] [a]
        _ = [a :: t] := by simp
  · intro ins
    cases ins with
    | nil => simp [_infer_separate]
    | cons a t =>
      by_cases hany : (a :: t).any (fun x => is_iterable x || is_dict x) = true
      · constructor
        · intro _
          left
          obtain ⟨x, hx, hor⟩ := List.any_eq_true.1 hany
          exact ⟨x, hx, by simpa using hor⟩
        · intro _
          simp [_infer_separate, hany]
      · have hany' := Bool.eq_false_iff.2 hany
        by_cases hall : (a :: t).all (fun x => pytype x == pytype (a :: t).headI) = true
        · have hinf : _infer_separate (a :: t) none = none := by
            unfold _infer_separate
            rw [hany', hall]
            simp
          rw [hinf]
          simp only [reduceCtorEq, false_iff]
          push_neg
          constructor
          · intro x hx
            have h1 := List.any_eq_false.1 hany' x hx
            constructor
            · exact Bool.eq_false_iff.1 (by revert h1; cases is_iterable x <;> simp)
            · exact Bool.eq_false_iff.1 (by revert h1; cases is_dict x <;> simp)
          · intro x hx y hy
            have h1 : pytype x = pytype (a :: t).headI := by
              have := List.all_eq_true.1 hall x hx
              simpa using this
            have h2 : pytype y = pytype (a :: t).headI := by
              have := List.all_eq_true.1 hall y hy
              simpa using this
            rw [h1, h2]
        · have hall' := Bool.eq_false_iff.2 hall
          have hinf : _infer_separate (a :: t) none = some true := by
            unfold _infer_separate
            rw [hany', hall']
            simp
          rw [hinf]
          simp only [true_iff]
          right
          intro habs
          apply hall
          rw [List.all_eq_true]
          intro x hx
          simpa using habs x hx a (List.mem_cons_self a t)

/-- Witness for C2 at `[atom 0, atom 0]`. -/
theorem C2_default_grouping_witness :
    _group_axes_data [PyObj.atom 0 none, PyObj.atom 0 (some ⟨"s", "time"⟩)] none
        = [[PyObj.atom 0 none, PyObj.atom 0 (some ⟨"s", "time"⟩)]]
    ∧ _infer_separate [PyObj.pylist [], PyObj.atom 0 none] none = some true :=
  ⟨(C2_default_grouping [PyObj.atom 0 none, PyObj.atom 0 (some ⟨"s", "time"⟩)]
      (by decide) (by decide) (by decide)).1,
   ((C2_default_grouping [PyObj.atom 0 none, PyObj.atom 0 (some ⟨"s", "time"⟩)]
      (by decide) (by decide) (by decide)).2
        [PyObj.pylist [], PyObj.atom 0 none]).2
      (Or.inl ⟨PyObj.pylist [], by simp, Or.inl rfl⟩)⟩

/-! ## Claim C8 -/

/-- **C8**: for every list of singular inputs, `_group_axes_data` with
`separate=True` returns one group per input, each containing exactly that
input, in the original order. -/
theorem C8_separate_grouping (inputs : List PyObj)
    (hsing : ∀ x ∈ inputs, is_singular x = true) :
    _group_axes_data inputs (some true) = inputs.map (fun x => [x]) := by
  rw [group_axes_data_sep_true]
  refine List.map_congr_left (fun x hx => ?_)
  have h := hsing x hx
  cases x with
  | atom t u => rfl
  | pylist l => simp [is_singular] at h
  | pydict l => simp [is_singular] at h

/-- Witness for C8 at `[atom 0, atom 1]`. -/
theorem C8_separate_grouping_witness :
    _group_axes_data [PyObj.atom 0 none, PyObj.atom 1 none] (some true)
      = [[PyObj.atom 0 none], [PyObj.atom 1 none]] :=
  C8_separate_grouping [PyObj.atom 0 none, PyObj.atom 1 none] (by decide)

/-! ## Claim C3 -/

/-- **C3 counterexample**: with `separate=False` passed explicitly, the
dict input `{k: atom 0}` followed by the singular input `atom 1` yields
the single group `[atom 0, atom 1]` — the singular input is appended to
the dict's group (`out[-1].append(x)` on line 501), so the dict's group
does not contain exactly the mapping's values (`[atom 0] ≠ [atom 0,
atom 1]`), refuting the claim for `separate = False`. -/
theorem C3_counterexample :
    _group_axes_data [PyObj.pydict [PyObj.atom 0 none], PyObj.atom 1 none] (some false)
        = [[PyObj.atom 0 none, PyObj.atom 1 none]]
    ∧ [PyObj.atom 0 none, PyObj.atom 1 none] ≠ [PyObj.atom 0 none] := by decide

/-- **C3 amended**: each mapping element of the input becomes its own
group containing exactly that mapping's values in insertion order,
provided `separate` is not explicitly `False` (i.e. `separate=True` or
unspecified; when unspecified, the presence of the mapping itself makes
the inference set `separate = True`).  With `separate=False` a subsequent
singular input joins the mapping's group, so the unrestricted claim
fails. -/
theorem C3_dict_own_group (inputs : List PyObj) (sep : Option Bool)
    (hsep : sep ≠ some false) (i : Nat) (hi : i < inputs.length)
    (vs : List PyObj) (hd : inputs[i] = PyObj.pydict vs) :
    (_group_axes_data inputs sep).length = inputs.length
    ∧ (_group_axes_data inputs sep)[i]? = some vs := by
  have hmap : _group_axes_data inputs sep = inputs.map to_group := by
    match sep, hsep with
    | some true, _ => exact group_axes_data_sep_true inputs
    | none, _ =>
      refine group_axes_data_none_of_mem_coll inputs (PyObj.pydict vs) ?_ (Or.inr rfl)
      rw [← hd]
      exact List.getElem_mem hi
  rw [hmap]
  refine ⟨List.length_map _ _, ?_⟩
  rw [List.getElem?_map, List.getElem?_eq_getElem hi, hd]
  rfl

/-- Witness for C3 (amended) at `[{k: atom 0}, atom 1]` with `separate`
unspecified. -/
theorem C3_dict_own_group_witness :
    (_group_axes_data [PyObj.pydict [PyObj.atom 0 none], PyObj.atom 1 none] none).length
        = ([PyObj.pydict [PyObj.atom 0 none], PyObj.atom 1 none] : List PyObj).length
    ∧ (_group_axes_data [PyObj.pydict [PyObj.atom 0 none], PyObj.atom 1 none] none)[0]?
        = some [PyObj.atom 0 none] :=
  C3_dict_own_group [PyObj.pydict [PyObj.atom 0 none], PyObj.atom 1 none] none
    (by decide) 0 (by decide) [PyObj.atom 0 none] rfl

/-! ## Layout lemmas -/

lemma shared_with_valid (spec : String) (row col : Nat) (h : valid_share spec) :
    shared_with spec row col = .ok (shared_with_ok spec row col) := by
  rcases h with h | h | h | h <;> simp [shared_with, shared_with_ok, h]

lemma mk_axes_valid (sharex sharey : String) (xscale : Option String)
    (nrows ncols : Nat) (g : List PyObj) (row col : Nat)
    (hx : valid_share sharex) (hy : valid_share sharey) :
    mk_axes sharex sharey xscale nrows ncols g row col
      = .ok (axes_of sharex sharey xscale nrows ncols (g, (row, col))) := by
  unfold mk_axes
  rw [shared_with_valid sharex row col hx, shared_with_valid sharey row col hy]
  rfl

lemma build_axes_valid (sharex sharey : String) (xscale : Option String)
    (nrows ncols : Nat) (hx : valid_share sharex) (hy : valid_share sharey) :
    ∀ l : List (List PyObj × (Nat × Nat)),
      build_axes sharex sharey xscale nrows ncols l
        = .ok (l.map (axes_of sharex sharey xscale nrows ncols))
  | [] => rfl
  | (g, rc) :: rest => by
    rw [List.map_cons]
    show (mk_axes sharex sharey xscale nrows ncols g rc.1 rc.2).bind _ = _
    rw [mk_axes_valid sharex sharey xscale nrows ncols g rc.1 rc.2 hx hy]
    show (build_axes sharex sharey xscale nrows ncols rest).bind _ = _
    rw [build_axes_valid sharex sharey xscale nrows ncols hx hy rest]
    rfl

lemma mem_grid_positions {nr nc : Nat} {rc : Nat × Nat}
    (h : rc ∈ grid_positions nr nc) : rc.1 < nr ∧ rc.2 < nc := by
  simp only [grid_positions, List.mem_flatMap, List.mem_map, List.mem_range] at h
  obtain ⟨r, hr, c, hc, rfl⟩ := h
  exact ⟨hr, hc⟩

lemma length_grid_positions (nr nc : Nat) :
    (grid_positions nr nc).length = nr * nc := by
  unfold grid_positions
  induction nr with
  | zero => simp
  | succ n ih =>
    rw [List.range_succ, List.flatMap_append, List.length_append, ih]
    simp [Nat.succ_mul]

/-- `_init_axes` written as a single conditional over the helper
definitions (pure unfolding). -/
lemma init_axes_eq_ite (data : List PyObj) (xscale : Option String)
    (sx sy : ShareArg) (geometry : Option (Nat × Nat)) (sep : Option Bool) :
    _init_axes data xscale sx sy geometry sep
      = if (resolved_geometry data geometry sep).1 * (resolved_geometry data geometry sep).2
            ≠ (init_axes_groups data geometry sep).length
        then .error ("cannot group data into "
            ++ toString (init_axes_groups data geometry sep).length ++ " axes with a "
            ++ toString (resolved_geometry data geometry sep).1 ++ "x"
            ++ toString (resolved_geometry data geometry sep).2 ++ " grid")
        else build_axes (coerce_share sx) (coerce_share sy) xscale
            (resolved_geometry data geometry sep).1 (resolved_geometry data geometry sep).2
            ((init_axes_groups data geometry sep).zip
              (grid_positions (resolved_geometry data geometry sep).1
                (resolved_geometry data geometry sep).2)) := rfl

lemma init_axes_ok_char (data : List PyObj) (xscale : Option String)
    (sx sy : ShareArg) (geometry : Option (Nat × Nat)) (sep : Option Bool)
    (hx : valid_share (coerce_share sx)) (hy : valid_share (coerce_share sy))
    (hgeom : (resolved_geometry data geometry sep).1 * (resolved_geometry data geometry sep).2
        = (init_axes_groups data geometry sep).length) :
    _init_axes data xscale sx sy geometry sep
      = .ok (((init_axes_groups data geometry sep).zip
            (grid_positions (resolved_geometry data geometry sep).1
              (resolved_geometry data geometry sep).2)).map
          (axes_of (coerce_share sx) (coerce_share sy) xscale
            (resolved_geometry data geometry sep).1
            (resolved_geometry data geometry sep).2)) := by
  rw [init_axes_eq_ite, if_neg (not_not_intro hgeom)]
  exact build_axes_valid _ _ _ _ _ hx hy _

lemma init_axes_error_char (data : List PyObj) (xscale : Option String)
    (sx sy : ShareArg) (geometry : Option (Nat × Nat)) (sep : Option Bool)
    (hgeom : (resolved_geometry data geometry sep).1 * (resolved_geometry data geometry sep).2
        ≠ (init_axes_groups data geometry sep).length) :
    _init_axes data xscale sx sy geometry sep
      = .error ("cannot group data into "
          ++ toString (init_axes_groups data geometry sep).length ++ " axes with a "
          ++ toString (resolved_geometry data geometry sep).1 ++ "x"
          ++ toString (resolved_geometry data geometry sep).2 ++ " grid") := by
  rw [init_axes_eq_ite, if_pos hgeom]

/-- Every axes a successful `_init_axes` returns is the image of a group
paired with a grid position. -/
lemma mem_init_axes (data : List PyObj) (xscale : Option String)
    (sx sy : ShareArg) (geometry : Option (Nat × Nat)) (sep : Option Bool)
    (axs : List AxesRec) (a : AxesRec)
    (hx : valid_share (coerce_share sx)) (hy : valid_share (coerce_share sy))
    (hok : _init_axes data xscale sx sy geometry sep = .ok axs) (ha : a ∈ axs) :
    ∃ g rc, g ∈ init_axes_groups data geometry sep
      ∧ rc ∈ grid_positions (resolved_geometry data geometry sep).1
          (resolved_geometry data geometry sep).2
      ∧ a = axes_of (coerce_share sx) (coerce_share sy) xscale
          (resolved_geometry data geometry sep).1
          (resolved_geometry data geometry sep).2 (g, rc) := by
  by_cases hgeom : (resolved_geometry data geometry sep).1
      * (resolved_geometry data geometry sep).2
      = (init_axes_groups data geometry sep).length
  · rw [init_axes_ok_char data xscale sx sy geometry sep hx hy hgeom] at hok
    obtain rfl : _ = axs := Except.ok.inj hok
    obtain ⟨⟨g, rc⟩, hgp, rfl⟩ := List.mem_map.1 ha
    exact ⟨g, rc, (List.of_mem_zip hgp).1, (List.of_mem_zip hgp).2, rfl⟩
  · rw [init_axes_error_char data xscale sx sy geometry sep hgeom] at hok
    exact absurd hok (by simp)

/-! ## Claim C5 -/

/-- **C4**: when an explicit geometry `(r, c)` is given with
`r*c = len(data)` (the raw input count, not the group count), `separate`
is forced to `True` before grouping, so each data item becomes its own
group and gets its own axes. -/
theorem C4_full_geometry_forces_separate (data : List PyObj) (xscale : Option String)
    (sx sy : ShareArg) (sep : Option Bool) (r c : Nat)
    (hgeom : r * c = data.length)
    (hx : valid_share (coerce_share sx)) (hy : valid_share (coerce_share sy)) :
    resolved_separate data (some (r, c)) sep = some true
    ∧ init_axes_groups data (some (r, c)) sep = data.map to_group
    ∧ ∃ axs, _init_axes data xscale sx sy (some (r, c)) sep = .ok axs
        ∧ axs.length = data.length
        ∧ ∀ (i : Nat) (hi : i < axs.length) (hj : i < data.length),
            axs[i].group = to_group data[i] := by
  have hsep : resolved_separate data (some (r, c)) sep = some true := by
    simp [resolved_separate, hgeom]
  have hgroups : init_axes_groups data (some (r, c)) sep = data.map to_group := by
    rw [init_axes_groups, hsep]
    exact group_axes_data_sep_true data
  have hlen : (init_axes_groups data (some (r, c)) sep).length = data.length := by
    rw [hgroups, List.length_map]
  have hcond : (resolved_geometry data (some (r, c)) sep).1
      * (resolved_geometry data (some (r, c)) sep).2
      = (init_axes_groups data (some (r, c)) sep).length := by
    rw [hlen]
    exact hgeom
  refine ⟨hsep, hgroups, _,
    init_axes_ok_char data xscale sx sy (some (r, c)) sep hx hy hcond, ?_, ?_⟩
  · rw [List.length_map, List.length_zip, length_grid_positions, hlen]
    have : (resolved_geometry data (some (r, c)) sep).1
        * (resolved_geometry data (some (r, c)) sep).2 = data.length := by
      rw [hcond, hlen]
    rw [this, Nat.min_self]
  · intro i hi hj
    rw [List.length_map] at hi
    rw [List.getElem_map, List.getElem_zip]
    show (init_axes_groups data (some (r, c)) sep)[i] = _
    rw [List.getElem_of_eq hgroups, List.getElem_map]

/-- Witness for C4 at two inputs with geometry `(2, 1)` and
`separate=False` overridden. -/
theorem C4_full_geometry_forces_separate_witness :
    resolved_separate [PyObj.atom 0 none, PyObj.atom 0 none] (some (2, 1)) (some false)
        = some true
    ∧ init_axes_groups [PyObj.atom 0 none, PyObj.atom 0 none] (some (2, 1)) (some false)
        = [PyObj.atom 0 none, PyObj.atom 0 none].map to_group
    ∧ ∃ axs, _init_axes [PyObj.atom 0 none, PyObj.atom 0 none] none
          (.bool true) (.bool true) (some (2, 1)) (some false) = .ok axs
        ∧ axs.length = ([PyObj.atom 0 none, PyObj.atom 0 none] : List PyObj).length
        ∧ ∀ (i : Nat) (hi : i < axs.length)
            (hj : i < ([PyObj.atom 0 none, PyObj.atom 0 none] : List PyObj).length),
            axs[i].group = to_group ([PyObj.atom 0 none, PyObj.atom 0 none] : List PyObj)[i] :=
  C4_full_geometry_forces_separate [PyObj.atom 0 none, PyObj.atom 0 none] none
    (.bool true) (.bool true) (some false) 2 1 (by decide)
    (Or.inr (Or.inl rfl)) (Or.inr (Or.inl rfl))

/-! ## Claim C1 -/

/-- **C1 counterexample**: on a `1×2` grid (two singular inputs,
`separate=True`, `geometry=(1,2)`) with `sharey="all"`, the code's
condition `col < ncols - 1` (line 163) clears the y label of the
*first*-column axes `(0,0)` and keeps the *last*-column axes `(0,1)` —
the opposite of the claim that non-first-column axes are suppressed while
first-column axes keep theirs. -/
theorem C1_counterexample :
    ∃ axs, _init_axes demo_data none (.str "none") (.str "all") (some (1, 2)) (some true)
        = .ok axs
      ∧ ∃ a ∈ axs, a.col = 0 ∧ a.ylabelCleared = true := by
  refine ⟨_, rfl, ?_⟩
  decide

/-- **C1 amended**: when sharex resolves to `"all"`, every axes not in
the last row has its x label suppressed while last-row axes keep theirs
(as claimed); but when sharey resolves to `"all"`, it is every axes not
in the **last column** that has its y label suppressed, while last-column
axes keep theirs (the code tests `col < ncols - 1`, not `col > 0`). -/
theorem C1_shared_label_suppression (data : List PyObj) (xscale : Option String)
    (sx sy : ShareArg) (geometry : Option (Nat × Nat)) (sep : Option Bool)
    (axs : List AxesRec) (a : AxesRec)
    (hx : valid_share (coerce_share sx)) (hy : valid_share (coerce_share sy))
    (hok : _init_axes data xscale sx sy geometry sep = .ok axs) (ha : a ∈ axs) :
    a.row < (resolved_geometry data geometry sep).1
    ∧ a.col < (resolved_geometry data geometry sep).2
    ∧ (coerce_share sx = "all" →
        (a.xlabelCleared = true ↔ a.row < (resolved_geometry data geometry sep).1 - 1))
    ∧ (coerce_share sx ≠ "all" → a.xlabelCleared = false)
    ∧ (coerce_share sy = "all" →
        (a.ylabelCleared = true ↔ a.col < (resolved_geometry data geometry sep).2 - 1))
    ∧ (coerce_share sy ≠ "all" → a.ylabelCleared = false) := by
  obtain ⟨g, rc, hg, hrc, rfl⟩ :=
    mem_init_axes data xscale sx sy geometry sep axs a hx hy hok ha
  have hb := mem_grid_positions hrc
  refine ⟨hb.1, hb.2, ?_, ?_, ?_, ?_⟩
  · intro h
    simp [axes_of, h]
  · intro h
    simp [axes_of, h]
  · intro h
    simp [axes_of, h]
  · intro h
    simp [axes_of, h]

/-- Witness for C1 (amended): a `2×1` grid with `sharex=True` clears the
x label exactly on the top axes (`row 0 < 2 - 1`), not on the bottom
(`row 1`). -/
theorem C1_shared_label_suppression_witness :
    ((⟨0, 0, none, none, some "auto-gps", true, false,
        [PyObj.atom 0 (some ⟨"s", "time"⟩)]⟩ : AxesRec).xlabelCleared = true ↔ 0 < 2 - 1)
    ∧ ((⟨1, 0, some (0, 0), none, none, false, false,
        [PyObj.atom 0 (some ⟨"Hz", "frequency"⟩)]⟩ : AxesRec).xlabelCleared = true ↔ 1 < 2 - 1) :=
  ⟨(C1_shared_label_suppression demo_data none (.bool true) (.bool false) none (some true)
      [⟨0, 0, none, none, some "auto-gps", true, false, [PyObj.atom 0 (some ⟨"s", "time"⟩)]⟩,
       ⟨1, 0, some (0, 0), none, none, false, false, [PyObj.atom 0 (some ⟨"Hz", "frequency"⟩)]⟩]
      ⟨0, 0, none, none, some "auto-gps", true, false, [PyObj.atom 0 (some ⟨"s", "time"⟩)]⟩
      (Or.inr (Or.inl rfl)) (Or.inl rfl) rfl (by decide)).2.2.1 rfl,
   (C1_shared_label_suppression demo_data none (.bool true) (.bool false) none (some true)
      [⟨0, 0, none, none, some "auto-gps", true, false, [PyObj.atom 0 (some ⟨"s", "time"⟩)]⟩,
       ⟨1, 0, some (0, 0), none, none, false, false, [PyObj.atom 0 (some ⟨"Hz", "frequency"⟩)]⟩]
      ⟨1, 0, some (0, 0), none, none, false, false, [PyObj.atom 0 (some ⟨"Hz", "frequency"⟩)]⟩
      (Or.inr (Or.inl rfl)) (Or.inl rfl) rfl (by decide)).2.2.1 rfl⟩

/-! ## Claim C6 -/

/-- **C6**: boolean share specs are coerced (`True ↦ "all"`,
`False ↦ "none"`), and each new axes at `(row, col)` shares the
corresponding axis with nothing for `"none"` (the `sharex`/`sharey`
argument passed to `add_subplot` is `None`), with the `(0,0)` axes for
`"all"`, with the `(row,0)` axes for `"row"`, and with the `(0,col)` axes
for `"col"` (for the anchor cells themselves the passed argument is
`None` — the not-yet-filled `axarr` entry — which coincides with sharing
with themselves; the share-group root captures both cases). -/
theorem C6_share_resolution (data : List PyObj) (xscale : Option String)
    (sx sy : ShareArg) (geometry : Option (Nat × Nat)) (sep : Option Bool)
    (axs : List AxesRec) (a : AxesRec)
    (hx : valid_share (coerce_share sx)) (hy : valid_share (coerce_share sy))
    (hok : _init_axes data xscale sx sy geometry sep = .ok axs) (ha : a ∈ axs) :
    (coerce_share (.bool true) = "all" ∧ coerce_share (.bool false) = "none")
    ∧ (coerce_share sx = "none" → a.sharex = none)
    ∧ (coerce_share sx = "all" → x_share_root a = (0, 0))
    ∧ (coerce_share sx = "row" → x_share_root a = (a.row, 0))
    ∧ (coerce_share sx = "col" → x_share_root a = (0, a.col))
    ∧ (coerce_share sy = "none" → a.sharey = none)
    ∧ (coerce_share sy = "all" → y_share_root a = (0, 0))
    ∧ (coerce_share sy = "row" → y_share_root a = (a.row, 0))
    ∧ (coerce_share sy = "col" → y_share_root a = (0, a.col)) := by
  obtain ⟨g, rc, hg, hrc, rfl⟩ :=
    mem_init_axes data xscale sx sy geometry sep axs a hx hy hok ha
  refine ⟨⟨rfl, rfl⟩, ?_, ?_, ?_, ?_, ?_, ?_, ?_, ?_⟩
  · intro h
    simp [axes_of, shared_with_ok, h]
  · intro h
    by_cases h00 : rc.1 = 0 ∧ rc.2 = 0
    · simp [x_share_root, axes_of, shared_with_ok, h, h00, if_pos, h00.1, h00.2]
    · simp [x_share_root, axes_of, shared_with_ok, h, h00]
  · intro h
    by_cases h0 : rc.2 = 0
    · simp [x_share_root, axes_of, shared_with_ok, h, h0]
    · simp [x_share_root, axes_of, shared_with_ok, h, h0]
  · intro h
    by_cases h0 : rc.1 = 0
    · simp [x_share_root, axes_of, shared_with_ok, h, h0]
    · simp [x_share_root, axes_of, shared_with_ok, h, h0]
  · intro h
    simp [axes_of, shared_with_ok, h]
  · intro h
    by_cases h00 : rc.1 = 0 ∧ rc.2 = 0
    · simp [y_share_root, axes_of, shared_with_ok, h, h00, h00.1, h00.2]
    · simp [y_share_root, axes_of, shared_with_ok, h, h00]
  · intro h
    by_cases h0 : rc.2 = 0
    · simp [y_share_root, axes_of, shared_with_ok, h, h0]
    · simp [y_share_root, axes_of, shared_with_ok, h, h0]
  · intro h
    by_cases h0 : rc.1 = 0
    · simp [y_share_root, axes_of, shared_with_ok, h, h0]
    · simp [y_share_root, axes_of, shared_with_ok, h, h0]

/-! ## Claim C10 -/

/-- **C10** (implicit behaviour): when the caller supplies no explicit
x-scale and the `Plot.__init__` probe over the flattened full input set
yields no default (so `_init_axes` receives `xscale=None`), each created
axes still gets `_parse_xscale` run on its own group (line 150), and on
`demo_data` (mixed time/frequency units, so the global probe yields
nothing) this gives two axes with *different* x-scales — `auto-gps` on
the time-unit group and no scale on the frequency-unit group. -/
theorem C10_per_axes_xscale (data : List PyObj) (sx sy : ShareArg)
    (geometry : Option (Nat × Nat)) (sep : Option Bool) (axs : List AxesRec)
    (hx : valid_share (coerce_share sx)) (hy : valid_share (coerce_share sy))
    (hprobe : plot_init_xscale data none = none)
    (hok : _init_axes data (plot_init_xscale data none) sx sy geometry sep = .ok axs) :
    (∀ a ∈ axs, a.xscale = _parse_xscale a.group)
    ∧ (plot_init_xscale demo_data none = none
        ∧ ∃ axs2, _init_axes demo_data (plot_init_xscale demo_data none)
              (.bool false) (.bool false) none (some true) = .ok axs2
            ∧ ∃ a ∈ axs2, ∃ b ∈ axs2, a.xscale ≠ b.xscale) := by
  constructor
  · intro a ha
    rw [hprobe] at hok
    obtain ⟨g, rc, hg, hrc, rfl⟩ :=
      mem_init_axes data none sx sy geometry sep axs a hx hy hok ha
    rfl
  · refine ⟨rfl, _, rfl, ?_⟩
    decide

/-- Witness for C10 at `demo_data` itself. -/
theorem C10_per_axes_xscale_witness :
    (∀ a ∈ [(⟨0, 0, none, none, some "auto-gps", false, false,
          [PyObj.atom 0 (some ⟨"s", "time"⟩)]⟩ : AxesRec),
        ⟨1, 0, none, none, none, false, false,
          [PyObj.atom 0 (some ⟨"Hz", "frequency"⟩)]⟩],
        a.xscale = _parse_xscale a.group)
    ∧ (plot_init_xscale demo_data none = none
        ∧ ∃ axs2, _init_axes demo_data (plot_init_xscale demo_data none)
              (.bool false) (.bool false) none (some true) = .ok axs2
            ∧ ∃ a ∈ axs2, ∃ b ∈ axs2, a.xscale ≠ b.xscale) :=
  C10_per_axes_xscale demo_data (.bool false) (.bool false) none (some true)
    [⟨0, 0, none, none, some "auto-gps", false, false, [PyObj.atom 0 (some ⟨"s", "time"⟩)]⟩,
     ⟨1, 0, none, none, none, false, false, [PyObj.atom 0 (some ⟨"Hz", "frequency"⟩)]⟩]
    (Or.inl rfl) (Or.inl rfl) rfl rfl

/-! ## Claim C7 -/

lemma dedup_eq_singleton_iff {α : Type} [DecidableEq α] (l : List α) (u : α) :
    l.dedup = [u] ↔ u ∈ l ∧ ∀ v ∈ l, v = u := by
  constructor
  · intro h
    refine ⟨List.mem_dedup.1 (by simp [h]), fun v hv => ?_⟩
    have : v ∈ l.dedup := List.mem_dedup.2 hv
    simpa [h] using this
  · rintro ⟨hu, hall⟩
    have hnd := l.nodup_dedup
    cases hd : l.dedup with
    | nil =>
      have : u ∈ l.dedup := List.mem_dedup.2 hu
      rw [hd] at this
      cases this
    | cons a t =>
      have ha : a = u := hall a (List.mem_dedup.1 (hd ▸ List.mem_cons_self a t))
      have ht : t = [] := by
        cases t with
        | nil => rfl
        | cons b s =>
          have hb : b = u :=
            hall b (List.mem_dedup.1 (hd ▸ List.mem_cons_of_mem a (List.mem_cons_self b s)))
          rw [hd] at hnd
          rcases List.nodup_cons.1 hnd with ⟨hnotmem, _⟩
          exact absurd (show a ∈ b :: s by
            rw [ha, ← hb]; exact List.mem_cons_self b s) hnotmem
      rw [ha, ht]

/-- **C7**: `_parse_xscale` signals `'auto-gps'` iff the items exposing an
`xunit` attribute agree on exactly one distinct unit and that unit's
physical type is `'time'`; in every other case (zero, mixed, or several
distinct units, or a non-time unit) it signals nothing, and `'auto-gps'`
is the only non-`None` value it can produce. -/
theorem C7_unit_probe (data : List PyObj) :
    (_parse_xscale data = some "auto-gps" ↔
      ∃ u : AUnit, u.physical_type = "time"
        ∧ (∃ x ∈ data, xunit_of x = some u)
        ∧ ∀ x ∈ data, ∀ v, xunit_of x = some v → v = u)
    ∧ ∀ s, _parse_xscale data = some s → s = "auto-gps" := by
  constructor
  · unfold _parse_xscale
    by_cases hlen : (data.filterMap xunit_of).dedup.length = 1
    · obtain ⟨u, hu⟩ := List.length_eq_one.1 hlen
      have hiff := (dedup_eq_singleton_iff (data.filterMap xunit_of) u).1 hu
      rw [if_neg (by simp [hlen]), hu]
      by_cases htime : u.physical_type = "time"
      · rw [if_pos (by simpa using htime)]
        simp only [true_iff]
        refine ⟨u, htime, ?_, ?_⟩
        · obtain ⟨x, hx, hxu⟩ := List.mem_filterMap.1 hiff.1
          exact ⟨x, hx, hxu⟩
        · intro x hx v hv
          exact hiff.2 v (List.mem_filterMap.2 ⟨x, hx, hv⟩)
      · rw [if_neg (by simpa using htime)]
        simp only [reduceCtorEq, false_iff]
        rintro ⟨w, hw, ⟨x, hx, hxw⟩, hall⟩
        have hwu : w = u := hiff.2 w (List.mem_filterMap.2 ⟨x, hx, hxw⟩)
        exact htime (hwu ▸ hw)
    · rw [if_pos (by simpa using hlen)]
      simp only [reduceCtorEq, false_iff]
      rintro ⟨u, hu, ⟨x, hx, hxu⟩, hall⟩
      apply hlen
      rw [(dedup_eq_singleton_iff (data.filterMap xunit_of) u).2
        ⟨List.mem_filterMap.2 ⟨x, hx, hxu⟩, fun v hv => ?_⟩]
      · rfl
      · obtain ⟨y, hy, hyv⟩ := List.mem_filterMap.1 hv
        exact hall y hy v hyv
  · intro s
    unfold _parse_xscale
    by_cases hlen : (data.filterMap xunit_of).dedup.length ≠ 1
    · rw [if_pos hlen]
      intro h
      cases h
    · rw [if_neg hlen]
      by_cases htime : ((data.filterMap xunit_of).dedup.headI).physical_type = "time"
      · rw [if_pos htime]
        intro h
        exact (Option.some.inj h).symm
      · rw [if_neg htime]
        intro h
        cases h

/-- Witness for C7: a one-element list with the seconds unit yields
`auto-gps`; seconds and hours are *distinct* units of the same physical
type `time`, so over both of them the probe collects two distinct units
and cannot yield `auto-gps`. -/
theorem C7_unit_probe_witness :
    _parse_xscale [PyObj.atom 0 (some ⟨"s", "time"⟩)] = some "auto-gps"
    ∧ _parse_xscale [PyObj.atom 0 (some ⟨"s", "time"⟩), PyObj.atom 1 (some ⟨"h", "time"⟩)]
        ≠ some "auto-gps" :=
  ⟨(C7_unit_probe [PyObj.atom 0 (some ⟨"s", "time"⟩)]).1.mpr
    ⟨⟨"s", "time"⟩, rfl, ⟨PyObj.atom 0 (some ⟨"s", "time"⟩), by simp, rfl⟩,
      by
        intro x hx v hv
        simp only [List.mem_singleton] at hx
        subst hx
        exact (Option.some.inj hv).symm⟩,
   fun h => by
     obtain ⟨u, hu, hmem, hall⟩ :=
       (C7_unit_probe [PyObj.atom 0 (some ⟨"s", "time"⟩),
          PyObj.atom 1 (some ⟨"h", "time"⟩)]).1.mp h
     have h1 : (⟨"s", "time"⟩ : AUnit) = u :=
       hall (PyObj.atom 0 (some ⟨"s", "time"⟩)) (by simp) ⟨"s", "time"⟩ rfl
     have h2 : (⟨"h", "time"⟩ : AUnit) = u :=
       hall (PyObj.atom 1 (some ⟨"h", "time"⟩)) (by simp) ⟨"h", "time"⟩ rfl
     exact absurd (h1.trans h2.symm) (by decide)⟩

/-! ## Claim C9 -/

/-- **C9**: `add_segments_bar` raises for every location other than
`"top"`/`"bottom"`, with no axes-creation effect having occurred; for
`"top"` and `"bottom"` it does not raise on account of location and the
first effect is the creation of the new segment axes at that location. -/
theorem C9_segments_location (location : String) (sharex_is_ax : Bool) :
    (¬ (location = "top" ∨ location = "bottom") →
      (add_segments_bar location sharex_is_ax).2
          = .error "Segments can only be positoned at 'top' or 'bottom'."
        ∧ ∀ loc, SegBarStep.append_axes loc ∉ (add_segments_bar location sharex_is_ax).1)
    ∧ ((location = "top" ∨ location = "bottom") →
      (add_segments_bar location sharex_is_ax).2 = .ok ()
        ∧ (add_segments_bar location sharex_is_ax).1.head?
            = some (SegBarStep.append_axes location)) := by
  constructor
  · intro h
    unfold add_segments_bar
    rw [if_pos h]
    exact ⟨rfl, by simp⟩
  · intro h
    unfold add_segments_bar
    rw [if_neg (not_not_intro h)]
    exact ⟨rfl, rfl⟩

/-- Witness for C9: `location="left"` raises before any axes creation;
`location="top"` succeeds. -/
theorem C9_segments_location_witness :
    ((add_segments_bar "left" true).2
        = .error "Segments can only be positoned at 'top' or 'bottom'."
      ∧ ∀ loc, SegBarStep.append_axes loc ∉ (add_segments_bar "left" true).1)
    ∧ (add_segments_bar "bottom" false).2 = .ok () :=
  ⟨(C9_segments_location "left" true).1 (by decide),
   ((C9_segments_location "bottom" false).2 (Or.inr rfl)).1⟩

/-- Witness for C6: on a `2×2` grid with `sharex="row"`, `sharey="col"`,
the bottom-right axes roots its x-share at `(1,0)` and its y-share at
`(0,1)`. -/
theorem C6_share_resolution_witness :
    (coerce_share (.bool true) = "all" ∧ coerce_share (.bool false) = "none")
    ∧ x_share_root (⟨1, 1, some (1, 0), some (0, 1), none, false, false,
        [PyObj.atom 3 none]⟩ : AxesRec) = (1, 0)
    ∧ y_share_root (⟨1, 1, some (1, 0), some (0, 1), none, false, false,
        [PyObj.atom 3 none]⟩ : AxesRec) = (0, 1) :=
  ⟨(C6_share_resolution
      [PyObj.atom 0 none, PyObj.atom 1 none, PyObj.atom 2 none, PyObj.atom 3 none]
      none (.str "row") (.str "col") (some (2, 2)) (some true)
      [⟨0, 0, none, none, none, false, false, [PyObj.atom 0 none]⟩,
       ⟨0, 1, some (0, 0), none, none, false, false, [PyObj.atom 1 none]⟩,
       ⟨1, 0, none, some (0, 0), none, false, false, [PyObj.atom 2 none]⟩,
       ⟨1, 1, some (1, 0), some (0, 1), none, false, false, [PyObj.atom 3 none]⟩]
      ⟨1, 1, some (1, 0), some (0, 1), none, false, false, [PyObj.atom 3 none]⟩
      (Or.inr (Or.inr (Or.inl rfl))) (Or.inr (Or.inr (Or.inr rfl)))
      rfl (by decide)).1,
   (C6_share_resolution
      [PyObj.atom 0 none, PyObj.atom 1 none, PyObj.atom 2 none, PyObj.atom 3 none]
      none (.str "row") (.str "col") (some (2, 2)) (some true)
      [⟨0, 0, none, none, none, false, false, [PyObj.atom 0 none]⟩,
       ⟨0, 1, some (0, 0), none, none, false, false, [PyObj.atom 1 none]⟩,
       ⟨1, 0, none, some (0, 0), none, false, false, [PyObj.atom 2 none]⟩,
       ⟨1, 1, some (1, 0), some (0, 1), none, false, false, [PyObj.atom 3 none]⟩]
      ⟨1, 1, some (1, 0), some (0, 1), none, false, false, [PyObj.atom 3 none]⟩
      (Or.inr (Or.inr (Or.inl rfl))) (Or.inr (Or.inr (Or.inr rfl)))
      rfl (by decide)).2.2.2.1 rfl,
   (C6_share_resolution
      [PyObj.atom 0 none, PyObj.atom 1 none, PyObj.atom 2 none, PyObj.atom 3 none]
      none (.str "row") (.str "col") (some (2, 2)) (some true)
      [⟨0, 0, none, none, none, false, false, [PyObj.atom 0 none]⟩,
       ⟨0, 1, some (0, 0), none, none, false, false, [PyObj.atom 1 none]⟩,
       ⟨1, 0, none, some (0, 0), none, false, false, [PyObj.atom 2 none]⟩,
       ⟨1, 1, some (1, 0), some (0, 1), none, false, false, [PyObj.atom 3 none]⟩]
      ⟨1, 1, some (1, 0), some (0, 1), none, false, false, [PyObj.atom 3 none]⟩
      (Or.inr (Or.inr (Or.inl rfl))) (Or.inr (Or.inr (Or.inr rfl)))
      rfl (by decide)).2.2.2.2.2.2.2.2 rfl⟩
